import Mathlib

/-!
Shallow embedding of the workout-split-server identity and schema-provisioning
subsystem: the bcrypt-backed credential helpers and JWT issuance in
`api/auth/auth.js`, the route handlers in `api/index.js`, the database
controller operations (`createUser`, `verifyUser`, `getUser`,
`updatePassword`), and the schema provisioner in
`api/database/dbConnection.js` (`checkTables`, `checkTableExists`, the three
`create*Table` functions and `createDemoUser`).

The persistent store is modelled as an explicit state (`DB`): three
table-existence flags plus the rows of the three relations.  `uuidv4` is
modelled as a counter threaded through the operations that consume fresh
identifiers, so freshly generated identifiers are consecutive naturals.
The bcrypt library is modelled functionally: a stored hash is a string made
of the version-and-cost header `$2b$08$`, a rendering of the salt drawn for
that call, and the payload; `bcrypt.compare` strips the header and the salt
and compares the payload.  The jsonwebtoken library is modelled by a record
carrying the signed claims, the issue and expiry instants, the signing
secret (standing for the signature) and the algorithm name.
-/

/-- The `$2b$08$` version-and-cost header of a bcrypt hash produced with
cost 8, the cost `auth.js` passes to `bcrypt.hash`. -/
def bcryptHeader : List Char := ['$', '2', 'b', '$', '0', '8', '$']

/-- Rendering of the salt drawn by `bcrypt.hash` into the stored hash
string.  The model only relies on the rendering being injective and never
containing the separator character `$`. -/
def saltRender (salt : Nat) : List Char := List.replicate salt '0'

/-- Functional model of `bcrypt.hash(password, 8)`: header, then the salt
drawn for this call, then a `$`-separated payload recording the input. -/
def bcryptHash (password : String) (salt : Nat) : String :=
  ⟨bcryptHeader ++ saltRender salt ++ '$' :: password.data⟩

/-- Functional model of `bcrypt.compare(password, stored)`: check the header,
skip the salt up to its `$` separator, and compare the payload. -/
def bcryptCompare (password stored : String) : Bool :=
  decide (stored.data.take 7 = bcryptHeader) &&
    decide ((((stored.data.drop 7).dropWhile (fun c => c != '$')).drop 1) = password.data)

/-- The failure a rejected promise carries in the model.  The `catch` blocks
of `auth.js` evaluate `res.status(400)...` where `res` is not in scope, so
the rejection observed by the caller is a ReferenceError for `res`. -/
inductive JsError where
  | referenceErr (name : String)
  deriving DecidableEq

/-- Model of `auth.js` `hashPassword`: on success returns the bcrypt hash of the
password.  When the primitive raises (`primitiveFails`), the catch block logs
and then evaluates `res.status(400)` with `res` unbound, so the async
function rejects instead of returning a value.  `salt` is the salt bcrypt
draws for this call. -/
def hashPassword (password : String) (salt : Nat) (primitiveFails : Bool) :
    Except JsError String :=
  if primitiveFails then .error (.referenceErr "res")
  else .ok (bcryptHash password salt)

/-- Model of `auth.js` `validPassword`: delegates to `bcrypt.compare`. -/
def validPassword (password passwordToMatch : String) : Bool :=
  bcryptCompare password passwordToMatch

/-- A row of the `users` relation.  Postgres lowercases the unquoted column
name `recId`, so the rows the controller returns expose it as `recid`; this
field models that column under either spelling. -/
structure UserRow where
  recId : Nat
  email : String
  password : String
  deriving DecidableEq

/-- A row of the `workouts` relation. -/
structure WorkoutRow where
  recId : Nat
  userRecId : Nat
  workoutName : String
  deriving DecidableEq

/-- A row of the `exercises` relation. -/
structure ExerciseRow where
  recId : Nat
  userRecId : Nat
  workoutRecId : Nat
  exerciseName : String
  sets : String
  deriving DecidableEq

/-- The persistent store: which relations exist, and their rows. -/
structure DB where
  usersTable : Bool
  workoutsTable : Bool
  exercisesTable : Bool
  users : List UserRow
  workouts : List WorkoutRow
  exercises : List ExerciseRow
  deriving DecidableEq

/-- The store before provisioning: no relations, no rows. -/
def emptyDB : DB :=
  { usersTable := false, workoutsTable := false, exercisesTable := false,
    users := [], workouts := [], exercises := [] }

/-- The claims `generateJWT` signs into a token: `userId` (the row's `recid`)
and `email`. -/
structure JwtClaims where
  userId : Nat
  email : String
  deriving DecidableEq

/-- Model of a signed JWT: the claims, issue and expiry instants, the
signing secret (standing for the HMAC signature) and the algorithm name. -/
structure Jwt where
  claims : JwtClaims
  iat : Nat
  exp : Nat
  sigSecret : String
  alg : String
  deriving DecidableEq

/-- Model of `auth.js` `generateJWT`: signs `userId` and `email` with the
process-wide secret, expiring `expiresIn` after the current instant, with
the library's default algorithm HS256. -/
def generateJWT (userDetails : UserRow) (secret : String) (expiresIn now : Nat) : Jwt :=
  { claims := { userId := userDetails.recId, email := userDetails.email },
    iat := now, exp := now + expiresIn, sigSecret := secret, alg := "HS256" }

/-- The `express-jwt` validation configured as `requireAuth` in
`api/index.js`: accept the token when its signature matches the configured
secret, its algorithm is among the configured algorithms, and it has not
expired; on success expose the claims. -/
def requireAuth (secret : String) (algorithms : List String) (token : Jwt) (now : Nat) :
    Option JwtClaims :=
  if token.sigSecret = secret ∧ token.alg ∈ algorithms ∧ now < token.exp then
    some token.claims
  else none

/-- Model of `dbController.verifyUser`: `SELECT EXISTS (SELECT 1 FROM users WHERE
email = $1)`. -/
def verifyUser (db : DB) (email : String) : Bool :=
  db.users.any (fun u => u.email == email)

/-- Model of `dbController.createUser`: `INSERT INTO users(recId, email, password)
VALUES($1, $2, $3) RETURNING *`; returns the updated store and the inserted
row (`res.rows[0]`). -/
def createUser (db : DB) (row : UserRow) : DB × UserRow :=
  ({ db with users := db.users ++ [row] }, row)

/-- Model of `dbController.getUser`: `SELECT * FROM users WHERE email = $1`, taking
`res.rows[0]` — the first stored row with that email, if any. -/
def getUser (db : DB) (email : String) : Option UserRow :=
  db.users.find? (fun u => u.email == email)

/-- Model of `dbController.updatePassword`: `UPDATE users SET password = $1 WHERE
recId = $2`, then return `data.recId` without inspecting the affected-row
count. -/
def updatePassword (db : DB) (recId : Nat) (password : String) : DB × Nat :=
  ({ db with users :=
      db.users.map (fun u => if u.recId = recId then { u with password := password } else u) },
   recId)

/-- A response sent by a route handler: status code, user-visible body, and
the token included in the body when one is issued. -/
structure ApiResponse where
  status : Nat
  body : String
  token : Option Jwt
  deriving DecidableEq

/-- The `POST /register` handler in `api/index.js`: build `data` (a fresh
uuid and the hashed password — a hashing rejection is caught by the outer
catch and answered with 500), then check existence via `verifyUser`; if the
email is taken answer 409 without touching the store, otherwise insert via
`createUser` and answer 201 with a token for the inserted row. -/
def registerHandler (email password : String) (freshId salt : Nat)
    (secret : String) (expiresIn now : Nat) (hashFails : Bool) (db : DB) :
    ApiResponse × DB :=
  match hashPassword password salt hashFails with
  | .error _ =>
      ({ status := 500, body := "Failed to create user. Please try again.", token := none }, db)
  | .ok hashed =>
      if verifyUser db email then
        ({ status := 409, body := "User already exists.", token := none }, db)
      else
        let created := createUser db { recId := freshId, email := email, password := hashed }
        ({ status := 201, body := "User created successfully.",
           token := some (generateJWT created.2 secret expiresIn now) }, created.1)

/-- The `POST /login` handler in `api/index.js`: if no row has the email,
answer 403 "Account does not exist."; otherwise fetch the row and compare
passwords, answering 200 with a token on a match and 403 "Invalid login
details." otherwise.  (The inner `none` branch models the impossible case
where the existence check succeeded but the fetch returned nothing: the
handler would throw reading `.password` of `undefined` and the outer catch
would answer 500.) -/
def loginHandler (email password secret : String) (expiresIn now : Nat) (db : DB) :
    ApiResponse :=
  if verifyUser db email then
    match getUser db email with
    | some userDetails =>
        if validPassword password userDetails.password then
          { status := 200, body := "User login successful",
            token := some (generateJWT userDetails secret expiresIn now) }
        else
          { status := 403, body := "Invalid login details.", token := none }
    | none => { status := 500, body := "Login failed. Please try again.", token := none }
  else
    { status := 403, body := "Account does not exist.", token := none }

/-- The `PUT /user` handler in `api/index.js`: hash the new password (a
hashing rejection is caught and answered with 500), call `updatePassword`,
and answer 200 unconditionally — the affected-row count is never read. -/
def putUserHandler (recId : Nat) (password : String) (salt : Nat) (hashFails : Bool)
    (db : DB) : ApiResponse × DB :=
  match hashPassword password salt hashFails with
  | .error _ =>
      ({ status := 500, body := "Error during updating password. Please try again.",
         token := none }, db)
  | .ok hashed =>
      let updated := updatePassword db recId hashed
      ({ status := 200, body := "Password updated successfully!", token := none }, updated.1)

/-- One column of a relation definition: its name and the constraints the
DDL attaches to it. -/
structure ColumnSpec where
  colName : String
  colPrimaryKey : Bool
  colUnique : Bool
  colNotNull : Bool
  deriving DecidableEq

/-- The store enforces uniqueness on a column exactly when the DDL declares
it PRIMARY KEY or UNIQUE. -/
def enforcesUnique (c : ColumnSpec) : Bool := c.colPrimaryKey || c.colUnique

/-- The relation definition issued by `createUsersTable`:
`recId UUID PRIMARY KEY, email VARCHAR(255) NOT NULL,
password VARCHAR(255) NOT NULL` — no UNIQUE keyword appears anywhere. -/
def usersTableColumns : List ColumnSpec :=
  [ { colName := "recId", colPrimaryKey := true, colUnique := false, colNotNull := false },
    { colName := "email", colPrimaryKey := false, colUnique := false, colNotNull := true },
    { colName := "password", colPrimaryKey := false, colUnique := false, colNotNull := true } ]

/-- The row-level constraint the created `users` relation imposes: the
single-column primary key on `recId` (the NOT NULL constraints are vacuous
for the row type, which has no null). -/
def usersConstraints (rows : List UserRow) : Prop :=
  rows.Pairwise (fun a b => a.recId ≠ b.recId)

instance (rows : List UserRow) : Decidable (usersConstraints rows) := by
  unfold usersConstraints; infer_instance

/-- Model of `createUsersTable`: `CREATE TABLE users (...)`; if the relation already
exists the statement errors and the catch swallows it, leaving the store
unchanged. -/
def createUsersTable (db : DB) : DB :=
  if db.usersTable then db else { db with usersTable := true }

/-- Model of `createWorkoutsTable`: `CREATE TABLE workouts (...)`, with the same
swallowed-error behaviour on an existing relation. -/
def createWorkoutsTable (db : DB) : DB :=
  if db.workoutsTable then db else { db with workoutsTable := true }

/-- Model of `createExerciseTable`: `CREATE TABLE exercises (...)`, with the same
swallowed-error behaviour on an existing relation. -/
def createExerciseTable (db : DB) : DB :=
  if db.exercisesTable then db else { db with exercisesTable := true }

/-- The demo `users` row inserted by `createDemoUser`: a fresh uuid, the
fixed email and the pre-hashed password literal from the source. -/
def demoUserRow (c : Nat) : UserRow :=
  { recId := c, email := "demo@user.com",
    password := "$2b$08$tDSoPYunn4olGO0VaNFVqOeedgfondpqRi9Enp7zn0xh9Q4TJWqXC" }

/-- The five demo `workouts` rows inserted by `createDemoUser`, in statement
order; `c` is the demo user's id and `c+1 .. c+5` are the five plan ids
(`pushDayId`, `pullDayId`, `legDayId`, `upperBodyDayId`, `lowerBodyDayId`),
generated in that order right after the user's id. -/
def demoWorkouts (c : Nat) : List WorkoutRow :=
  [ { recId := c + 1, userRecId := c, workoutName := "Push Day" },
    { recId := c + 2, userRecId := c, workoutName := "Pull Day" },
    { recId := c + 3, userRecId := c, workoutName := "Leg Day" },
    { recId := c + 4, userRecId := c, workoutName := "Upper Body Day" },
    { recId := c + 5, userRecId := c, workoutName := "Lower Body Day" } ]

/-- The twenty-five demo `exercises` rows inserted by `createDemoUser`, in
statement order.  The parameter array of the INSERT evaluates `uuidv4()` in
position order, so the fresh exercise ids are `c+6 .. c+30` in row order;
the workout references are the plan ids bound at positions 3, 9, 15, 21 and
27 of the statement (`pushDayId = c+1`, `pullDayId = c+2`, `legDayId = c+3`,
`upperBodyDayId = c+4`, `lowerBodyDayId = c+5`). -/
def demoExercises (c : Nat) : List ExerciseRow :=
  [ { recId := c + 6, userRecId := c, workoutRecId := c + 1,
      exerciseName := "Bench Press", sets := "3 Sets" },
    { recId := c + 7, userRecId := c, workoutRecId := c + 1,
      exerciseName := "Shoulder Press", sets := "3 Sets" },
    { recId := c + 8, userRecId := c, workoutRecId := c + 1,
      exerciseName := "Tricep Dips", sets := "3 Sets" },
    { recId := c + 9, userRecId := c, workoutRecId := c + 1,
      exerciseName := "Chest Flyes", sets := "3 Sets" },
    { recId := c + 10, userRecId := c, workoutRecId := c + 1,
      exerciseName := "Tricep Pushdowns", sets := "3 Sets" },
    { recId := c + 11, userRecId := c, workoutRecId := c + 2,
      exerciseName := "Pull-Ups", sets := "3 Sets" },
    { recId := c + 12, userRecId := c, workoutRecId := c + 2,
      exerciseName := "Barbell Rows", sets := "3 Sets" },
    { recId := c + 13, userRecId := c, workoutRecId := c + 2,
      exerciseName := "Bicep Curls", sets := "3 Sets" },
    { recId := c + 14, userRecId := c, workoutRecId := c + 2,
      exerciseName := "Face Pulls", sets := "3 Sets" },
    { recId := c + 15, userRecId := c, workoutRecId := c + 2,
      exerciseName := "Lat Pulldowns", sets := "3 Sets" },
    { recId := c + 16, userRecId := c, workoutRecId := c + 3,
      exerciseName := "Squats", sets := "3 Sets" },
    { recId := c + 17, userRecId := c, workoutRecId := c + 3,
      exerciseName := "Leg Press", sets := "3 Sets" },
    { recId := c + 18, userRecId := c, workoutRecId := c + 3,
      exerciseName := "Leg Curls", sets := "3 Sets" },
    { recId := c + 19, userRecId := c, workoutRecId := c + 3,
      exerciseName := "Leg Extensions", sets := "3 Sets" },
    { recId := c + 20, userRecId := c, workoutRecId := c + 3,
      exerciseName := "Calf Raises", sets := "3 Sets" },
    { recId := c + 21, userRecId := c, workoutRecId := c + 4,
      exerciseName := "Incline Bench Press", sets := "3 Sets" },
    { recId := c + 22, userRecId := c, workoutRecId := c + 4,
      exerciseName := "Bent Over Rows", sets := "3 Sets" },
    { recId := c + 23, userRecId := c, workoutRecId := c + 4,
      exerciseName := "Lateral Raises", sets := "3 Sets" },
    { recId := c + 24, userRecId := c, workoutRecId := c + 4,
      exerciseName := "Tricep Extensions", sets := "3 Sets" },
    { recId := c + 25, userRecId := c, workoutRecId := c + 4,
      exerciseName := "Bicep Curls", sets := "3 Sets" },
    { recId := c + 26, userRecId := c, workoutRecId := c + 5,
      exerciseName := "Deadlifts", sets := "3 Sets" },
    { recId := c + 27, userRecId := c, workoutRecId := c + 5,
      exerciseName := "Lunges", sets := "3 Sets" },
    { recId := c + 28, userRecId := c, workoutRecId := c + 5,
      exerciseName := "Hamstring Curls", sets := "3 Sets" },
    { recId := c + 29, userRecId := c, workoutRecId := c + 5,
      exerciseName := "Glute Bridges", sets := "3 Sets" },
    { recId := c + 30, userRecId := c, workoutRecId := c + 5,
      exerciseName := "Calf Raises", sets := "3 Sets" } ]

/-- Model of `createDemoUser` in `dbConnection.js`: insert the demo user, the five
demo workouts and the twenty-five demo exercises.  `c` is the uuid counter;
the call consumes 31 fresh identifiers (1 user + 5 plans + 25 exercises)
and returns the advanced counter. -/
def createDemoUser (c : Nat) (db : DB) : DB × Nat :=
  ({ db with users := db.users ++ [demoUserRow c],
             workouts := db.workouts ++ demoWorkouts c,
             exercises := db.exercises ++ demoExercises c }, c + 31)

/-- The metadata query of `checkTableExists`: whether
`INFORMATION_SCHEMA.TABLES` lists the relation. -/
def tableListed (db : DB) (tableName : String) : Bool :=
  if tableName = "users" then db.usersTable
  else if tableName = "workouts" then db.workoutsTable
  else if tableName = "exercises" then db.exercisesTable
  else false

/-- Model of `checkTableExists(tableName, createTable)`: query the metadata; if the
relation is absent, create it, and additionally seed the demo data when the
relation is `exercises`; if the relation is present, do nothing.  When the
metadata query itself fails (`queryFails`), the catch logs and calls
`createTable()` directly — without the demo-seeding step.  The state is the
store paired with the uuid counter. -/
def checkTableExists (tableName : String) (createTable : DB → DB) (queryFails : Bool)
    (s : DB × Nat) : DB × Nat :=
  if queryFails then (createTable s.1, s.2)
  else if tableListed s.1 tableName then s
  else
    let db1 := createTable s.1
    if tableName = "exercises" then createDemoUser s.2 db1 else (db1, s.2)

/-- Model of `checkTables` in `dbConnection.js`: process the three relations in
dependency order `users`, `workouts`, `exercises`.  The three flags say
whether the metadata query fails for the respective relation. -/
def checkTables (fUsers fWorkouts fExercises : Bool) (s : DB × Nat) : DB × Nat :=
  checkTableExists "exercises" createExerciseTable fExercises
    (checkTableExists "workouts" createWorkoutsTable fWorkouts
      (checkTableExists "users" createUsersTable fUsers s))

/-! Helper lemmas about the bcrypt model and the controller operations. -/

/-- The salt rendering never contains the separator, so `dropWhile` skips
exactly the salt. -/
theorem dropWhile_saltRender (s : Nat) (rest : List Char) :
    (saltRender s ++ '$' :: rest).dropWhile (fun c => c != '$') = '$' :: rest := by
  induction s with
  | zero => simp [saltRender, List.dropWhile_cons]
  | succ n _ => simp [saltRender, List.replicate_succ, List.dropWhile_cons]

/-- Round trip of the bcrypt model: comparing a password against its own
hash succeeds, whatever salt was drawn. -/
theorem bcryptCompare_bcryptHash (p : String) (s : Nat) :
    bcryptCompare p (bcryptHash p s) = true := by
  unfold bcryptCompare bcryptHash
  simp only [Bool.and_eq_true, decide_eq_true_eq]
  constructor
  · have h7 : (7 : Nat) = bcryptHeader.length := rfl
    rw [h7, List.append_assoc, List.take_left]
  · have h7 : (7 : Nat) = bcryptHeader.length := rfl
    rw [h7, List.append_assoc, List.drop_left, dropWhile_saltRender]
    rfl

/-- Distinct salts give distinct stored hashes for the same password. -/
theorem bcryptHash_salt_inj (p : String) (s1 s2 : Nat) (h : s1 ≠ s2) :
    bcryptHash p s1 ≠ bcryptHash p s2 := by
  intro heq
  apply h
  have hdata : bcryptHeader ++ saltRender s1 ++ '$' :: p.data =
      bcryptHeader ++ saltRender s2 ++ '$' :: p.data := congrArg String.data heq
  have hlen := congrArg List.length hdata
  simp [saltRender] at hlen
  omega

/-- If `getUser` finds a row for an email, the `verifyUser` existence check
answers true for that email. -/
theorem verifyUser_of_getUser (db : DB) (email : String) (u : UserRow)
    (h : getUser db email = some u) : verifyUser db email = true := by
  unfold getUser at h
  unfold verifyUser
  have hmem := List.mem_of_find?_eq_some h
  have hp := List.find?_some h
  exact List.any_eq_true.mpr ⟨u, hmem, hp⟩

/-- C4: when the password-hashing primitive fails, `hashPassword` fails the
enclosing operation with an error — it never reports success and never
yields a value usable as a stored credential; in particular the register
handler answers 500 and leaves the store unchanged, storing nothing. -/
theorem hashPassword_failure_propagates (p : String) (salt freshId : Nat)
    (email secret : String) (expiresIn now : Nat) (db : DB) :
    (∃ e, hashPassword p salt true = .error e) ∧
    (∀ h, hashPassword p salt true ≠ .ok h) ∧
    registerHandler email p freshId salt secret expiresIn now true db =
      ({ status := 500, body := "Failed to create user. Please try again.", token := none }, db) := by
  refine ⟨⟨.referenceErr "res", rfl⟩, ?_, rfl⟩
  intro h
  simp [hashPassword]

/-- C8: hashing round-trips through verification, and is salted: two calls
of `hashPassword` on the same password with the distinct salts bcrypt draws
yield two distinct stored hashes, and both verify against the password via
`validPassword`. -/
theorem hash_verify_roundtrip_salted (p : String) (s1 s2 : Nat) (hne : s1 ≠ s2) :
    ∃ h1 h2, hashPassword p s1 false = .ok h1 ∧ hashPassword p s2 false = .ok h2 ∧
      validPassword p h1 = true ∧ validPassword p h2 = true ∧ h1 ≠ h2 := by
  refine ⟨bcryptHash p s1, bcryptHash p s2, rfl, rfl, ?_, ?_, ?_⟩
  · exact bcryptCompare_bcryptHash p s1
  · exact bcryptCompare_bcryptHash p s2
  · exact bcryptHash_salt_inj p s1 s2 hne

/-- Witness for C8 at password "secret" with salts 0 and 1. -/
theorem hash_verify_roundtrip_salted_witness :
    (0 : Nat) ≠ 1 ∧
    ∃ h1 h2, hashPassword "secret" 0 false = .ok h1 ∧ hashPassword "secret" 1 false = .ok h2 ∧
      validPassword "secret" h1 = true ∧ validPassword "secret" h2 = true ∧ h1 ≠ h2 :=
  ⟨by decide, hash_verify_roundtrip_salted "secret" 0 1 (by decide)⟩

/-- C7: a token issued by `generateJWT` for a row with an id and an email
validates successfully through the `requireAuth` configuration (same secret,
algorithms list containing HS256) at any instant before the configured
lifetime elapses, and the recovered claims are exactly the pair of the
row's id and email. -/
theorem token_validates_with_issued_claims (u : UserRow) (secret : String)
    (expiresIn now t : Nat) (h : t < now + expiresIn) :
    requireAuth secret ["HS256"] (generateJWT u secret expiresIn now) t =
      some { userId := u.recId, email := u.email } := by
  unfold requireAuth generateJWT
  simp [h]

/-- Witness for C7 at a concrete identity, secret and lifetime. -/
theorem token_validates_with_issued_claims_witness :
    (0 : Nat) < 0 + 5 ∧
    requireAuth "thisIsASecret" ["HS256"]
        (generateJWT { recId := 1, email := "demo@user.com", password := "h" }
          "thisIsASecret" 5 0) 0 =
      some { userId := 1, email := "demo@user.com" } :=
  ⟨by decide,
   token_validates_with_issued_claims
     { recId := 1, email := "demo@user.com", password := "h" } "thisIsASecret" 5 0 0
     (by decide)⟩

/-- C9: when the metadata existence query fails, `checkTableExists` behaves
as if the relation does not exist: it issues the Create step (even when the
relation is in fact listed) and does not abort; had the query succeeded on a
listed relation, creation would have been skipped. -/
theorem check_failure_proceeds_to_create (tableName : String) (createTable : DB → DB)
    (s : DB × Nat) (hlisted : tableListed s.1 tableName = true) :
    checkTableExists tableName createTable true s = (createTable s.1, s.2) ∧
    checkTableExists tableName createTable false s = s := by
  unfold checkTableExists
  simp [hlisted]

/-- Witness for C9: the users relation exists, yet a failing check still
issues `createUsersTable`. -/
theorem check_failure_proceeds_to_create_witness :
    tableListed { emptyDB with usersTable := true } "users" = true ∧
    (checkTableExists "users" createUsersTable true ({ emptyDB with usersTable := true }, 0) =
        (createUsersTable { emptyDB with usersTable := true }, 0) ∧
      checkTableExists "users" createUsersTable false ({ emptyDB with usersTable := true }, 0) =
        ({ emptyDB with usersTable := true }, 0)) :=
  ⟨by decide,
   check_failure_proceeds_to_create "users" createUsersTable
     ({ emptyDB with usersTable := true }, 0) (by decide)⟩

/-- C10: `updatePassword` returns the given record id without checking that
a matching row exists, and for a record id no stored row carries, the
`PUT /user` handler still answers 200 "Password updated successfully!"
while the store is left unchanged. -/
theorem update_missing_user_reports_success (recId : Nat) (password : String)
    (salt : Nat) (db : DB) (habsent : ∀ u ∈ db.users, u.recId ≠ recId) :
    (updatePassword db recId password).2 = recId ∧
    (putUserHandler recId password salt false db).1 =
      { status := 200, body := "Password updated successfully!", token := none } ∧
    (putUserHandler recId password salt false db).2 = db := by
  refine ⟨rfl, rfl, ?_⟩
  show ({ db with users := db.users.map _ } : DB) = db
  have hmap : db.users.map
      (fun u => if u.recId = recId then { u with password := bcryptHash password salt } else u) =
      db.users := by
    have hcongr := List.map_congr_left (l := db.users)
      (f := fun u => if u.recId = recId then { u with password := bcryptHash password salt } else u)
      (g := fun u => u) (fun a ha => if_neg (habsent a ha))
    rw [hcongr, List.map_id']
  rw [hmap]

/-- A concrete store holding a single user with record id 5, for the C10
witness. -/
def singleUserDB : DB :=
  { emptyDB with
    usersTable := true,
    users := [{ recId := 5, email := "a@b.com", password := "h" }] }

/-- Witness for C10: the single-user store updated at the absent record
id 7. -/
theorem update_missing_user_reports_success_witness :
    (∀ u ∈ singleUserDB.users, u.recId ≠ 7) ∧
    ((updatePassword singleUserDB 7 "new").2 = 7 ∧
      (putUserHandler 7 "new" 0 false singleUserDB).1 =
        { status := 200, body := "Password updated successfully!", token := none } ∧
      (putUserHandler 7 "new" 0 false singleUserDB).2 = singleUserDB) :=
  ⟨by decide, update_missing_user_reports_success 7 "new" 0 singleUserDB (by decide)⟩

/-- A concrete store holding one user whose stored hash was produced from
password "pw" with salt 0, for exercising the login handler. -/
def loginDemoDB : DB :=
  { emptyDB with
    usersTable := true,
    users := [{ recId := 0, email := "a@x.com", password := bcryptHash "pw" 0 }] }

/-- C2 counterexample: at a concrete store, login with an unknown email and
login with a known email but wrong password both fail with status 403, yet
the user-visible bodies differ, so the response distinguishes the two
causes. -/
theorem login_failure_messages_differ :
    (loginHandler "b@x.com" "pw" "s" 5 0 loginDemoDB).status = 403 ∧
    (loginHandler "a@x.com" "wrong" "s" 5 0 loginDemoDB).status = 403 ∧
    (loginHandler "b@x.com" "pw" "s" 5 0 loginDemoDB).body = "Account does not exist." ∧
    (loginHandler "a@x.com" "wrong" "s" 5 0 loginDemoDB).body = "Invalid login details." ∧
    (loginHandler "b@x.com" "pw" "s" 5 0 loginDemoDB).body ≠
      (loginHandler "a@x.com" "wrong" "s" 5 0 loginDemoDB).body := by
  decide

/-- C2 amended: every authentication failure of the login handler carries
the same status 403, but the two causes produce different user-visible
bodies — "Account does not exist." for an unknown email and "Invalid login
details." for a known email with a non-matching password — so the response
does distinguish the cases. -/
theorem login_failure_same_status_distinct_bodies (e1 e2 p1 p2 secret : String)
    (expiresIn now : Nat) (db : DB) (u : UserRow)
    (h1 : verifyUser db e1 = false)
    (h2 : getUser db e2 = some u) (h3 : validPassword p2 u.password = false) :
    loginHandler e1 p1 secret expiresIn now db =
      { status := 403, body := "Account does not exist.", token := none } ∧
    loginHandler e2 p2 secret expiresIn now db =
      { status := 403, body := "Invalid login details.", token := none } := by
  constructor
  · unfold loginHandler
    simp [h1]
  · unfold loginHandler
    simp [verifyUser_of_getUser db e2 u h2, h2, h3]

/-- Witness for the amended C2 at the concrete store `loginDemoDB`. -/
theorem login_failure_same_status_distinct_bodies_witness :
    (verifyUser loginDemoDB "b@x.com" = false ∧
      getUser loginDemoDB "a@x.com" =
        some { recId := 0, email := "a@x.com", password := bcryptHash "pw" 0 } ∧
      validPassword "wrong" (bcryptHash "pw" 0) = false) ∧
    (loginHandler "b@x.com" "pw" "s" 5 0 loginDemoDB =
        { status := 403, body := "Account does not exist.", token := none } ∧
      loginHandler "a@x.com" "wrong" "s" 5 0 loginDemoDB =
        { status := 403, body := "Invalid login details.", token := none }) :=
  ⟨⟨by decide, by decide, by decide⟩,
   login_failure_same_status_distinct_bodies "b@x.com" "a@x.com" "pw" "wrong" "s" 5 0
     loginDemoDB { recId := 0, email := "a@x.com", password := bcryptHash "pw" 0 }
     (by decide) (by decide) (by decide)⟩

/-- C3: starting from a store with no identity for the email, the first
registration succeeds with 201 and a token; a second registration of the
same email answers 409 Conflict, leaves the store exactly as the first call
left it, and afterwards exactly one identity row carries the email. -/
theorem register_twice_conflict (e p1 p2 secret : String)
    (i1 i2 s1 s2 expiresIn now1 now2 : Nat) (db : DB)
    (hfresh : verifyUser db e = false) :
    (registerHandler e p1 i1 s1 secret expiresIn now1 false db).1.status = 201 ∧
    (∃ t, (registerHandler e p1 i1 s1 secret expiresIn now1 false db).1.token = some t) ∧
    (registerHandler e p2 i2 s2 secret expiresIn now2 false
        (registerHandler e p1 i1 s1 secret expiresIn now1 false db).2).1 =
      { status := 409, body := "User already exists.", token := none } ∧
    (registerHandler e p2 i2 s2 secret expiresIn now2 false
        (registerHandler e p1 i1 s1 secret expiresIn now1 false db).2).2 =
      (registerHandler e p1 i1 s1 secret expiresIn now1 false db).2 ∧
    ((registerHandler e p1 i1 s1 secret expiresIn now1 false db).2.users.filter
        (fun u => u.email == e)).length = 1 := by
  have hany : db.users.any (fun u => u.email == e) = false := hfresh
  have hnil : db.users.filter (fun u => u.email == e) = [] := by
    rw [List.filter_eq_nil_iff]
    intro a ha
    have := List.any_eq_false.mp hany a ha
    simpa using this
  have hno : ¬ ∃ x ∈ db.users, x.email = e := by
    rintro ⟨x, hx, hxe⟩
    have hfalse := List.any_eq_false.mp hany x hx
    simp [hxe] at hfalse
  unfold registerHandler hashPassword createUser verifyUser
  simp [hno, List.filter_append, hnil]

/-- Witness for C3: registering "new@x.com" twice against the single-user
store. -/
theorem register_twice_conflict_witness :
    verifyUser singleUserDB "new@x.com" = false ∧
    ((registerHandler "new@x.com" "p1" 10 0 "s" 5 0 false singleUserDB).1.status = 201 ∧
      (∃ t, (registerHandler "new@x.com" "p1" 10 0 "s" 5 0 false
          singleUserDB).1.token = some t) ∧
      (registerHandler "new@x.com" "p2" 11 1 "s" 5 1 false
          (registerHandler "new@x.com" "p1" 10 0 "s" 5 0 false singleUserDB).2).1 =
        { status := 409, body := "User already exists.", token := none } ∧
      (registerHandler "new@x.com" "p2" 11 1 "s" 5 1 false
          (registerHandler "new@x.com" "p1" 10 0 "s" 5 0 false singleUserDB).2).2 =
        (registerHandler "new@x.com" "p1" 10 0 "s" 5 0 false singleUserDB).2 ∧
      ((registerHandler "new@x.com" "p1" 10 0 "s" 5 0 false singleUserDB).2.users.filter
          (fun u => u.email == "new@x.com")).length = 1) :=
  ⟨by decide,
   register_twice_conflict "new@x.com" "p1" "p2" "s" 10 11 0 1 5 0 1 singleUserDB (by decide)⟩

/-- The provisioned store with an empty users relation, as a concurrent
registration race starts. -/
def usersOnlyDB : DB := { emptyDB with usersTable := true }

/-- The store produced by interleaving two registrations of the same email
so that both pass the existence check before either inserts: both inserts
then run against the created users relation. -/
def racedDB : DB :=
  (createUser (createUser usersOnlyDB
      { recId := 1, email := "dup@x.com", password := "h1" }).1
    { recId := 2, email := "dup@x.com", password := "h2" }).1

/-- C1 counterexample: the relation definition issued by `createUsersTable`
attaches no uniqueness constraint to the email column, and the state reached
by two interleaved registrations of the same email — both of whose existence
prechecks answered false on the starting store — holds two distinct rows
sharing one email while satisfying every constraint the created relation
declares. -/
theorem email_uniqueness_counterexample :
    (∀ col ∈ usersTableColumns, col.colName = "email" → enforcesUnique col = false) ∧
    verifyUser usersOnlyDB "dup@x.com" = false ∧
    usersConstraints racedDB.users ∧
    (∃ u1 ∈ racedDB.users, ∃ u2 ∈ racedDB.users, u1 ≠ u2 ∧ u1.email = u2.email) := by
  refine ⟨by decide, by decide, by decide, ?_⟩
  refine ⟨{ recId := 1, email := "dup@x.com", password := "h1" }, by decide,
    { recId := 2, email := "dup@x.com", password := "h2" }, by decide, by decide, rfl⟩

/-- C1 amended: the users relation definition enforces uniqueness only on
`recId` (its primary key); the email column carries no uniqueness
constraint, so from any store whose rows satisfy the relation's constraints
and carry an email no row holds, interleaving two registrations of that
email (both prechecks pass, then both inserts run with fresh distinct ids)
reaches a store that still satisfies every declared constraint yet holds at
least two rows with that email.  Email uniqueness is therefore not enforced
by the store; only the non-atomic service-level precheck guards it. -/
theorem users_schema_email_not_unique (e h1 h2 : String) (i1 i2 : Nat) (db : DB)
    (hne : i1 ≠ i2) (hfresh : verifyUser db e = false)
    (hpk : usersConstraints db.users)
    (hids : ∀ u ∈ db.users, u.recId ≠ i1 ∧ u.recId ≠ i2) :
    (∀ col ∈ usersTableColumns, enforcesUnique col = true → col.colName = "recId") ∧
    verifyUser db e = false ∧
    usersConstraints
      ((createUser (createUser db { recId := i1, email := e, password := h1 }).1
          { recId := i2, email := e, password := h2 }).1).users ∧
    2 ≤ (((createUser (createUser db { recId := i1, email := e, password := h1 }).1
          { recId := i2, email := e, password := h2 }).1).users.filter
        (fun u => u.email == e)).length := by
  refine ⟨by decide, hfresh, ?_, ?_⟩
  · unfold createUser usersConstraints
    rw [List.pairwise_append]
    refine ⟨?_, by simp, ?_⟩
    · rw [List.pairwise_append]
      refine ⟨hpk, by simp, ?_⟩
      intro a ha b hb
      rw [List.mem_singleton] at hb
      subst hb
      exact (hids a ha).1
    · intro a ha b hb
      rw [List.mem_singleton] at hb
      subst hb
      rcases List.mem_append.mp ha with hal | har
      · exact (hids a hal).2
      · rw [List.mem_singleton] at har
        subst har
        exact hne
  · unfold createUser
    simp [List.filter_append]

/-- Witness for the amended C1 at the freshly provisioned empty store. -/
theorem users_schema_email_not_unique_witness :
    ((1 : Nat) ≠ 2 ∧ verifyUser usersOnlyDB "dup@x.com" = false ∧
      usersConstraints usersOnlyDB.users ∧
      (∀ u ∈ usersOnlyDB.users, u.recId ≠ 1 ∧ u.recId ≠ 2)) ∧
    ((∀ col ∈ usersTableColumns, enforcesUnique col = true → col.colName = "recId") ∧
      verifyUser usersOnlyDB "dup@x.com" = false ∧
      usersConstraints
        ((createUser (createUser usersOnlyDB
            { recId := 1, email := "dup@x.com", password := "h1" }).1
            { recId := 2, email := "dup@x.com", password := "h2" }).1).users ∧
      2 ≤ (((createUser (createUser usersOnlyDB
            { recId := 1, email := "dup@x.com", password := "h1" }).1
            { recId := 2, email := "dup@x.com", password := "h2" }).1).users.filter
          (fun u => u.email == "dup@x.com")).length) :=
  ⟨⟨by decide, by decide, by decide, by decide⟩,
   users_schema_email_not_unique "dup@x.com" "h1" "h2" 1 2 usersOnlyDB
     (by decide) (by decide) (by decide) (by decide)⟩

/-- C5: provisioning from the empty store creates the users, workouts and
exercises relations and the demo data — one identity, five plans,
twenty-five entries — and a second provisioning run against the resulting
store is the identity: no relation is created and no row is inserted,
because the seed step runs only when the exercises relation was freshly
created. -/
theorem provisioning_idempotent (c : Nat) :
    (checkTables false false false (emptyDB, c)).1.usersTable = true ∧
    (checkTables false false false (emptyDB, c)).1.workoutsTable = true ∧
    (checkTables false false false (emptyDB, c)).1.exercisesTable = true ∧
    (checkTables false false false (emptyDB, c)).1.users.length = 1 ∧
    (checkTables false false false (emptyDB, c)).1.workouts.length = 5 ∧
    (checkTables false false false (emptyDB, c)).1.exercises.length = 25 ∧
    checkTables false false false (checkTables false false false (emptyDB, c)) =
      checkTables false false false (emptyDB, c) := by
  refine ⟨rfl, rfl, rfl, rfl, rfl, rfl, rfl⟩

/-- C6: the seed step inserts exactly one demonstration identity, exactly
five plans all owned by it, and exactly twenty-five entries whose plan
references each hit one of the five freshly generated plan ids, five
entries per plan; all thirty-one generated identifiers are pairwise
distinct. -/
theorem seed_contents (c : Nat) (db : DB) :
    (createDemoUser c db).1.users = db.users ++ [demoUserRow c] ∧
    (createDemoUser c db).1.workouts = db.workouts ++ demoWorkouts c ∧
    (createDemoUser c db).1.exercises = db.exercises ++ demoExercises c ∧
    (demoWorkouts c).length = 5 ∧
    (∀ w ∈ demoWorkouts c, w.userRecId = (demoUserRow c).recId) ∧
    (demoExercises c).length = 25 ∧
    (∀ x ∈ demoExercises c, x.workoutRecId ∈ (demoWorkouts c).map (fun w => w.recId)) ∧
    (∀ w ∈ demoWorkouts c,
      ((demoExercises c).filter (fun x => x.workoutRecId == w.recId)).length = 5) ∧
    ((demoUserRow c).recId :: ((demoWorkouts c).map (fun w => w.recId) ++
        (demoExercises c).map (fun x => x.recId))).Nodup := by
  refine ⟨rfl, rfl, rfl, rfl, ?_, rfl, ?_, ?_, ?_⟩
  · intro w hw
    fin_cases hw <;> rfl
  · intro x hx
    fin_cases hx <;> simp [demoWorkouts]
  · intro w hw
    fin_cases hw <;> simp [demoExercises]
  · have hids : ((demoUserRow c).recId :: ((demoWorkouts c).map (fun w => w.recId) ++
        (demoExercises c).map (fun x => x.recId))) = List.range' c 31 := rfl
    rw [hids]
    exact List.nodup_range' c 31
